import Mathlib

set_option maxRecDepth 100000

/-!
Verification development for the GPlay Reviews MCP server.

The source under study is `src/index.ts` (request handlers) and
`src/types.ts` (data shapes).  The repository layer
(`ReviewsRepository`, `AppsRepository`) is not part of the available
source; its operations (`find`, `countReviews`, `findById`, `addReply`)
are modelled from the specification, as marked on each definition.
Handlers are translated directly from `src/index.ts`.

JavaScript numbers appearing in requests are modelled as `Int`;
timestamps are modelled as `Nat`.  The JavaScript `x || d` defaulting
idiom (used by the handlers for `limit`/`offset`) is modelled by
`jsOrOpt`, which returns the default both when the field is absent and
when it is `0` (the only falsy integer).
-/

/-- Developer reply attached to a review (`types.ts`, `Review.replyData`). -/
structure ReplyData where
  replyId : String
  replyText : String
  replyDate : Nat
  lastEditDate : Option Nat := none
deriving DecidableEq, Repr

/-- Internal review workflow status (`types.ts`, `internalMetadata.status`). -/
inductive ReviewStatus where
  | new
  | flagged
  | responded
  | resolved
deriving DecidableEq, Repr

/-- Internal metadata block of a review (`types.ts`). -/
structure InternalMetadata where
  status : ReviewStatus
  tags : List String := []
  assignedTo : Option String := none
  notes : Option String := none
deriving DecidableEq, Repr

/-- Device descriptor of a review (`types.ts`, `Review.deviceMetadata`). -/
structure DeviceMetadata where
  device : String := "generic"
  os : String := "Android"
  osVersion : String := "14"
deriving DecidableEq, Repr

/-- One user review (`types.ts`, interface `Review`). -/
structure Review where
  id : String
  appPackage : String
  userName : String := "user"
  userImage : Option String := none
  rating : Int
  title : Option String := none
  text : String
  date : Nat
  lastUpdateDate : Nat := 0
  language : String := "en"
  country : String := "US"
  appVersion : String := "1.0"
  deviceMetadata : DeviceMetadata := {}
  replyData : Option ReplyData := none
  internalMetadata : Option InternalMetadata := none
deriving DecidableEq, Repr

/-- One tracked application (`types.ts`, interface `AppMetadata`). -/
structure AppMetadata where
  packageName : String
  title : String := "App"
  latestVersion : Option String := none
deriving DecidableEq, Repr

/-- Modelled from the spec: the Review Store (§4.1) owning the canonical
review and app collections.  The persisted backing medium is out of
scope; the store is its in-memory contents. -/
structure Store where
  reviews : List Review
  apps : List AppMetadata
deriving DecidableEq, Repr

/-- Declarative review filter (`types.ts`, interface `ReviewFilter`).
All fields optional; absence means no constraint. -/
structure ReviewFilter where
  appPackage : Option String := none
  minRating : Option Int := none
  maxRating : Option Int := none
  startDate : Option Nat := none
  endDate : Option Nat := none
  languages : Option (List String) := none
  countries : Option (List String) := none
  appVersions : Option (List String) := none
  minAppVersion : Option String := none
  deviceTypes : Option (List String) := none
  osVersions : Option (List String) := none
  minOsVersion : Option String := none
  hasReply : Option Bool := none
  hasFreshReply : Option Bool := none
  status : Option (List ReviewStatus) := none
  tags : Option (List String) := none
  assignedTo : Option (List String) := none
  limit : Option Int := none
  offset : Option Int := none
deriving DecidableEq, Repr

/-- Error taxonomy as surfaced by the handlers (`McpError` codes used in
`src/index.ts`). -/
inductive Err where
  | invalidParams (msg : String)
  | invalidRequest (msg : String)
  | internalError (msg : String)
deriving DecidableEq, Repr

/-- Pagination metadata block (`types.ts`, `ReviewsResponse.pagination`). -/
structure Pagination where
  total : Nat
  limit : Int
  offset : Int
  hasMore : Bool
deriving DecidableEq, Repr

/-- Response of `get_reviews` and `search_reviews` (`types.ts`,
`ReviewsResponse`). -/
structure ReviewsResponse where
  reviews : List Review
  pagination : Pagination
deriving DecidableEq, Repr

/-- Response of `post_reply` (`types.ts`, `ReplyResponse`). -/
structure ReplyResponse where
  success : Bool
  replyId : String
  timestamp : Nat
deriving DecidableEq, Repr

/-- JavaScript `x || d` defaulting on an optional number: absent and `0`
both fall back to the default (0 is the only falsy integer here). -/
def jsOrOpt (o : Option Int) (d : Int) : Int :=
  match o with
  | none => d
  | some x => if x = 0 then d else x

/-- A constraint check on an optional filter field: an absent field
imposes no constraint. -/
def optB (o : Option α) (p : α → Bool) : Bool :=
  match o with
  | none => true
  | some a => p a

/-- Modelled from the spec: version strings are compared component-wise
(§4.2, "2.10" is greater than "2.9"), parsing dot-separated numeric
components. -/
def parseVersion (s : String) : List Nat :=
  (s.splitOn ".").map (fun t => t.toNat?.getD 0)

/-- Component-wise version comparison; missing trailing components count
as zero. -/
def verLe : List Nat → List Nat → Bool
  | [], _ => true
  | x :: xs, [] => x == 0 && verLe xs []
  | x :: xs, y :: ys => x < y || (x == y && verLe xs ys)

/-- A review's reply is fresh when its reply date (or last edit date if
present) is strictly newer than the review's last update (§4.2). -/
def freshReply (r : Review) : Bool :=
  match r.replyData with
  | none => false
  | some rd => decide (r.lastUpdateDate < rd.lastEditDate.getD rd.replyDate)

/-- Modelled from the spec: the Filter Evaluator (§4.2).  All specified
constraints are AND-ed; inside a list constraint membership is OR; an
empty or absent list is no constraint; `status`/`tags`/`assignedTo`
fail when the review lacks `internalMetadata`; `limit`/`offset` are
pagination fields and impose no per-record constraint. -/
def matchesFilter (r : Review) (f : ReviewFilter) : Bool :=
  optB f.appPackage (fun p => r.appPackage == p) &&
  optB f.minRating (fun m => decide (m ≤ r.rating)) &&
  optB f.maxRating (fun m => decide (r.rating ≤ m)) &&
  optB f.startDate (fun d => decide (d ≤ r.date)) &&
  optB f.endDate (fun d => decide (r.date ≤ d)) &&
  optB f.languages (fun ls => ls.isEmpty || ls.contains r.language) &&
  optB f.countries (fun cs => cs.isEmpty || cs.contains r.country) &&
  optB f.appVersions (fun vs => vs.isEmpty || vs.contains r.appVersion) &&
  optB f.minAppVersion (fun v => verLe (parseVersion v) (parseVersion r.appVersion)) &&
  optB f.deviceTypes (fun ds => ds.isEmpty || ds.contains r.deviceMetadata.device) &&
  optB f.osVersions (fun os_ => os_.isEmpty || os_.contains r.deviceMetadata.osVersion) &&
  optB f.minOsVersion (fun v => verLe (parseVersion v) (parseVersion r.deviceMetadata.osVersion)) &&
  optB f.hasReply (fun b => b == r.replyData.isSome) &&
  optB f.hasFreshReply (fun b => b == freshReply r) &&
  optB f.status (fun ss =>
    match r.internalMetadata with
    | none => false
    | some m => ss.any (fun s => s == m.status)) &&
  optB f.tags (fun ts =>
    match r.internalMetadata with
    | none => false
    | some m => ts.any (fun t => m.tags.contains t)) &&
  optB f.assignedTo (fun al =>
    match r.internalMetadata with
    | none => false
    | some m =>
      match m.assignedTo with
      | none => false
      | some a => al.contains a)

/-- Byte-wise total order on identifier character lists, used for the
deterministic id tie-break. -/
def charListLe : List Char → List Char → Bool
  | [], _ => true
  | _ :: _, [] => false
  | a :: xs, b :: ys =>
    if a.val < b.val then true
    else if b.val < a.val then false
    else charListLe xs ys

/-- Modelled from the spec: the stable deterministic result order of the
Query Engine (§4.3) — `date` descending, ties broken by `id`
ascending. -/
def revLe (a b : Review) : Prop :=
  b.date < a.date ∨ (a.date = b.date ∧ charListLe a.id.data b.id.data = true)

instance : DecidableRel revLe := fun a b => by
  unfold revLe
  infer_instance

/-- Modelled from the spec: the Query Engine's candidate set (§4.3) — by
`appPackage` when the filter gives one, else the entire store. -/
def candidateSet (store : Store) (f : ReviewFilter) : List Review :=
  match f.appPackage with
  | some p => store.reviews.filter (fun r => r.appPackage == p)
  | none => store.reviews

/-- Modelled from the spec: the Query Engine's matching sequence before
pagination (§4.3) — candidate set, filtered per-record, in the stable
order given by `revLe`. -/
def findUnsliced (store : Store) (f : ReviewFilter) : List Review :=
  List.insertionSort revLe ((candidateSet store f).filter (fun r => matchesFilter r f))

/-- Modelled from the spec: the Query Engine's `find` (§4.3), slicing
the ordered matches to the window `[offset, offset+limit)` with `limit`
defaulting to 20 and `offset` to 0.  The spec's out-of-range rejection
clause is not modelled: `handleSearchReviews` in `src/index.ts` calls
`find` with `limit: 1000` and relies on receiving that large batch, so
`find` honours the supplied bounds as given. -/
def findList (store : Store) (f : ReviewFilter) : List Review :=
  ((findUnsliced store f).drop (f.offset.getD 0).toNat).take (f.limit.getD 20).toNat

/-- Modelled from the spec: `countByApp` (§4.1) — total reviews for an
app, ignoring filters. -/
def countByApp (store : Store) (p : String) : Nat :=
  (store.reviews.filter (fun r => r.appPackage == p)).length

/-- The effective filter built by `handleGetReviews` (`src/index.ts`):
`{appPackage: args.appPackage, ...args.filter, limit: args.filter?.limit
|| 20, offset: args.filter?.offset || 0}` — the spread lets a filter's
own `appPackage` override the top-level one. -/
def buildGetFilter (appPackage : String) (af : Option ReviewFilter) : ReviewFilter :=
  let base := af.getD {}
  { base with
    appPackage := some (base.appPackage.getD appPackage)
    limit := some (jsOrOpt base.limit 20)
    offset := some (jsOrOpt base.offset 0) }

/-- The `get_reviews` tool handler (`src/index.ts`, `handleGetReviews`):
fetches `find(filter)`, but sets `pagination.total` from
`countReviews(args.appPackage)`. -/
def handleGetReviews (store : Store) (appPackage : String) (af : Option ReviewFilter) :
    ReviewsResponse :=
  let filter := buildGetFilter appPackage af
  let total := countByApp store appPackage
  let lim := jsOrOpt filter.limit 20
  let off := jsOrOpt filter.offset 0
  { reviews := findList store filter
    pagination :=
      { total := total
        limit := lim
        offset := off
        hasMore := decide (off + lim < (total : Int)) } }

/-- Arguments of the `search_reviews` tool (`src/index.ts` input schema):
`query` required; `appPackage`, `filter`, `limit`, `offset` optional.
`limit`/`offset` are top-level here, unlike `get_reviews`. -/
structure SearchArgs where
  query : String
  appPackage : Option String := none
  filter : Option ReviewFilter := none
  limit : Option Int := none
  offset : Option Int := none
deriving DecidableEq, Repr

/-- Lower-casing by character, mirroring JavaScript `toLowerCase` for
the ASCII identifiers and texts under study. -/
def lowerStr (s : String) : String :=
  ⟨s.data.map Char.toLower⟩

/-- Substring scan over character lists, mirroring JavaScript
`String.prototype.includes`. -/
def hasSub (needle : List Char) : List Char → Bool
  | [] => needle.isEmpty
  | c :: rest => needle.isPrefixOf (c :: rest) || hasSub needle rest

/-- `hay.includes(needle)` from `src/index.ts`'s text search. -/
def strIncludes (hay needle : String) : Bool :=
  hasSub needle.data hay.data

/-- The app-package predicate of `handleSearchReviews`: restrict to
`args.appPackage` when given, else accept every review. -/
def searchPkgOk (o : Option String) (r : Review) : Bool :=
  match o with
  | some p => r.appPackage == p
  | none => true

/-- The case-insensitive text predicate of `handleSearchReviews`: the
lowered query occurs in the lowered `text`, or in the lowered `title`
when a title is present. -/
def searchTextOk (loweredQuery : String) (r : Review) : Bool :=
  strIncludes (lowerStr r.text) loweredQuery ||
    (match r.title with
     | some t => strIncludes (lowerStr t) loweredQuery
     | none => false)

/-- The combined predicate of `handleSearchReviews` (`combinedFilter` in
`src/index.ts`). -/
def searchCombined (args : SearchArgs) (r : Review) : Bool :=
  searchPkgOk args.appPackage r && searchTextOk (lowerStr args.query) r

/-- The filter object built by `handleSearchReviews`:
`{...(args.filter || {}), limit: args.limit || 20, offset: args.offset
|| 0}`. -/
def searchBase (args : SearchArgs) : ReviewFilter :=
  { args.filter.getD {} with
    limit := some (jsOrOpt args.limit 20)
    offset := some (jsOrOpt args.offset 0) }

/-- The filter `handleSearchReviews` actually passes to `find`:
`{...filter, limit: 1000, offset: 0}` — a large batch intended to cover
the whole collection. -/
def searchFindFilter (args : SearchArgs) : ReviewFilter :=
  { searchBase args with limit := some 1000, offset := some 0 }

/-- The post-text-filter matching set of `handleSearchReviews`
(`matchingReviews` in `src/index.ts`): the batch returned by `find`,
filtered by the combined predicate. -/
def searchMatching (store : Store) (args : SearchArgs) : List Review :=
  (findList store (searchFindFilter args)).filter (searchCombined args)

/-- The `search_reviews` tool handler (`src/index.ts`,
`handleSearchReviews`): slices the matching set to the requested window
and reports `total`/`hasMore` from it. -/
def handleSearchReviews (store : Store) (args : SearchArgs) : ReviewsResponse :=
  let matching := searchMatching store args
  let total := matching.length
  let off := jsOrOpt args.offset 0
  let lim := jsOrOpt args.limit 20
  { reviews := (matching.drop off.toNat).take lim.toNat
    pagination :=
      { total := total
        limit := lim
        offset := off
        hasMore := decide (off + lim < (total : Int)) } }

/-- Modelled from the spec: the Reply Mutator's update of a single
review (§4.4) — overwrite `replyData` with the fresh reply and advance
`internalMetadata.status` to `responded` unless already `resolved`. -/
def applyReply (r : Review) (replyText : String) (now : Nat) (newReplyId : String) : Review :=
  { r with
    replyData := some
      { replyId := newReplyId
        replyText := replyText
        replyDate := now
        lastEditDate := none }
    internalMetadata :=
      match r.internalMetadata with
      | none => some { status := .responded }
      | some m =>
        if m.status = .resolved then some m
        else some { m with status := .responded } }

/-- Modelled from the spec: `addReply(reviewId, replyText)` (§4.4).
`replyText` must be non-empty and at most 350 characters (else
`InvalidArgument`, rejected before any mutation); an unknown `reviewId`
returns `false` with the store unchanged; otherwise the single reply
slot of the review is overwritten.  The fresh reply id and current time
are passed in explicitly. -/
def addReply (store : Store) (reviewId replyText : String) (now : Nat) (newReplyId : String) :
    Except Err (Store × Bool) :=
  if replyText.length = 0 ∨ 350 < replyText.length then
    .error (.invalidParams "replyText must be non-empty and at most 350 characters")
  else if (store.reviews.find? (fun r => r.id == reviewId)).isSome then
    .ok
      ({ store with
          reviews := store.reviews.map
            (fun r => if r.id == reviewId then applyReply r replyText now newReplyId else r) },
        true)
  else
    .ok (store, false)

/-- The `post_reply` tool handler (`src/index.ts`, `handlePostReply`):
rejects a `replyText` longer than 350 characters, delegates to
`addReply`, maps a `false` result to a not-found error, then re-fetches
the review and answers from its stored reply data. -/
def handlePostReply (store : Store) (reviewId replyText : String) (now : Nat)
    (newReplyId : String) : Except Err (Store × ReplyResponse) :=
  if 350 < replyText.length then
    .error (.invalidParams
      ("replyText exceeds maximum length (" ++ toString replyText.length ++ "/350)"))
  else
    (addReply store reviewId replyText now newReplyId).bind (fun sr =>
      if sr.2 then
        Option.elim ((sr.1.reviews.find? (fun r => r.id == reviewId)).bind (fun r => r.replyData))
          (.error (.internalError "Failed to retrieve reply data"))
          (fun rd => .ok (sr.1, { success := true, replyId := rd.replyId, timestamp := rd.replyDate }))
      else
        .error (.invalidRequest ("Review not found: " ++ reviewId)))

/-- Result of reading the app-reviews resource
`googleplay://reviews/{appPackage}`. -/
structure AppReviewsResult where
  uri : String
  reviews : List Review
deriving DecidableEq, Repr

/-- The app-reviews resource handler (`src/index.ts`,
`handleAppReviewsResource`): calls `find({limit: 10, offset: 0})`
without any `appPackage`, so the supplied package only shapes the echoed
URI. -/
def handleAppReviewsResource (store : Store) (appPackage : String) : AppReviewsResult :=
  { uri := "googleplay://reviews/" ++ appPackage
    reviews := findList store { limit := some 10, offset := some 0 } }

/-- Result of reading the specific-review resource
`googleplay://reviews/{appPackage}/{reviewId}`. -/
structure SpecificReviewResult where
  uri : String
  review : Review
deriving DecidableEq, Repr

/-- The specific-review resource handler (`src/index.ts`,
`handleSpecificReviewResource`): looks the review up by id alone
(`findById` is modelled from the spec as lookup-by-id over the whole
store, §4.1) and fails only when no review with that id exists. -/
def handleSpecificReviewResource (store : Store) (appPackage reviewId : String) :
    Except Err SpecificReviewResult :=
  match store.reviews.find? (fun r => r.id == reviewId) with
  | none => .error (.invalidRequest ("Review not found: " ++ reviewId))
  | some review =>
    .ok { uri := "googleplay://reviews/" ++ appPackage ++ "/" ++ reviewId, review := review }

/-- Shape of the global statistics resource payload. -/
structure GeneralStats where
  totalApps : Nat
  totalReviews : Nat
  averageRating : Rat
deriving DecidableEq, Repr

/-- The global stats resource handler (`src/index.ts`,
`handleStatsResource`): returns a hardcoded placeholder regardless of
the store's contents. -/
def handleStatsResource (_store : Store) : GeneralStats :=
  { totalApps := 3, totalReviews := 8, averageRating := mkRat 17 5 }

/-- A concrete review with the fields the scenarios exercise; the
remaining fields take the structure defaults. -/
def exReview (rid pkg : String) (rating : Int) (date : Nat) (text : String) : Review :=
  { id := rid, appPackage := pkg, rating := rating, date := date, text := text }

/-- The spec's scenario store: three reviews for `com.example.app` with
ratings 5, 1, 5 (dates distinct so the result order is unambiguous). -/
def scenarioStore : Store :=
  { reviews :=
      [ exReview "a1" "com.example.app" 5 30 "great"
      , exReview "a2" "com.example.app" 1 20 "bad"
      , exReview "a3" "com.example.app" 5 10 "fine" ]
    apps := [{ packageName := "com.example.app" }] }

/-- A store holding a single review, for the app `com.other.app`. -/
def otherAppReview : Review := exReview "b1" "com.other.app" 4 5 "solid"

/-- Store whose only review belongs to `com.other.app`. -/
def storeOtherOnly : Store := { reviews := [otherAppReview], apps := [] }

/-- Store with one review for app `app.a`. -/
def storeOneA : Store := { reviews := [exReview "a9" "app.a" 3 7 "ok"], apps := [] }

/-- The empty store. -/
def emptyStore : Store := { reviews := [], apps := [] }

/-- C1 counterexample: in the spec's own scenario (three reviews for
`com.example.app` rated 5, 1, 5 and filter `minRating := 5`), the two
rating-5 reviews are returned, but `pagination.total` is 3 — the
per-app count — not the claimed post-filter count of 2. -/
theorem getReviews_total_scenario_cex :
    (handleGetReviews scenarioStore "com.example.app"
        (some { minRating := some 5 })).reviews.length = 2 ∧
    (handleGetReviews scenarioStore "com.example.app"
        (some { minRating := some 5 })).pagination.total = 3 := by
  decide

/-- C1 amended: for every store and every `get_reviews` request,
`pagination.total` equals the number of reviews whose `appPackage`
equals the top-level `appPackage` argument, ignoring all other filter
constraints (`countReviews` receives only the package). -/
theorem getReviews_total_ignores_filter (store : Store) (pkg : String)
    (af : Option ReviewFilter) :
    (handleGetReviews store pkg af).pagination.total =
      (store.reviews.filter (fun r => r.appPackage == pkg)).length := rfl

/-- C3: reading `googleplay://reviews/com.example.app` against a store
whose only review belongs to `com.other.app` returns that foreign
review — the handler queries `find({limit: 10, offset: 0})` without the
package, so the supplied package only shapes the echoed URI. -/
theorem appReviewsResource_ignores_package_eval :
    handleAppReviewsResource storeOtherOnly "com.example.app" =
      { uri := "googleplay://reviews/com.example.app", reviews := [otherAppReview] } ∧
    otherAppReview.appPackage ≠ "com.example.app" := by
  decide

/-- C4 counterexample: a `get_reviews` request with `limit: 0` — a value
outside `[1,100]` — does not fail: the JavaScript `||` default silently
replaces 0 by 20 and the request succeeds. -/
theorem getReviews_limit_zero_cex :
    handleGetReviews storeOneA "app.a" (some { limit := some 0 }) =
      { reviews := [exReview "a9" "app.a" 3 7 "ok"]
        pagination := { total := 1, limit := 20, offset := 0, hasMore := false } } := by
  decide

/-- The handler's double application of the `|| d` default collapses. -/
theorem jsOrOpt_idem (x : Option Int) (d : Int) :
    jsOrOpt (some (jsOrOpt x d)) d = jsOrOpt x d := by
  cases x with
  | none => by_cases hd : d = 0 <;> simp [jsOrOpt, hd]
  | some v =>
    by_cases hv : v = 0
    · by_cases hd : d = 0 <;> simp [jsOrOpt, hv, hd]
    · simp [jsOrOpt, hv]

/-- C5: `post_reply` with an empty `replyText` is rejected with an
`InvalidArgument`-class error; no updated store is produced, so the
review collection is untouched. -/
theorem postReply_empty_rejected (store : Store) (reviewId : String) (now : Nat)
    (newReplyId : String) :
    handlePostReply store reviewId "" now newReplyId =
      .error (.invalidParams "replyText must be non-empty and at most 350 characters") := rfl

/-- C7: the global stats resource evaluated on the empty store still
reports `totalApps = 3`, `totalReviews = 8`, `averageRating = 3.4` — a
hardcoded placeholder, not a recomputation from the store, whose actual
app and review counts are 0. -/
theorem statsResource_constant_eval :
    handleStatsResource emptyStore =
      { totalApps := 3, totalReviews := 8, averageRating := mkRat 17 5 } ∧
    emptyStore.apps.length = 0 ∧ emptyStore.reviews.length = 0 := by
  decide

/-- C4 amended: `get_reviews` performs no range validation and cannot
fail: `limit` absent or `0` becomes 20 and `offset` absent or `0`
becomes 0 (the JavaScript `||` default), any other values are forwarded
to `find` as given, and the returned page never exceeds the effective
limit. -/
theorem getReviews_no_range_validation (store : Store) (pkg : String)
    (af : Option ReviewFilter) :
    (handleGetReviews store pkg af).pagination.limit =
      jsOrOpt (af.bind (fun f => f.limit)) 20 ∧
    (handleGetReviews store pkg af).pagination.offset =
      jsOrOpt (af.bind (fun f => f.offset)) 0 ∧
    (handleGetReviews store pkg af).reviews.length ≤
      (jsOrOpt (af.bind (fun f => f.limit)) 20).toNat := by
  have hbl : (af.getD {} : ReviewFilter).limit = af.bind (fun f => f.limit) := by
    cases af <;> rfl
  have hbo : (af.getD {} : ReviewFilter).offset = af.bind (fun f => f.offset) := by
    cases af <;> rfl
  refine ⟨?_, ?_, ?_⟩
  · show jsOrOpt (some (jsOrOpt (af.getD {} : ReviewFilter).limit 20)) 20 = _
    rw [jsOrOpt_idem, hbl]
  · show jsOrOpt (some (jsOrOpt (af.getD {} : ReviewFilter).offset 0)) 0 = _
    rw [jsOrOpt_idem, hbo]
  · have hrev : (handleGetReviews store pkg af).reviews =
        ((findUnsliced store (buildGetFilter pkg af)).drop
            (((buildGetFilter pkg af).offset.getD 0).toNat)).take
          ((jsOrOpt (af.bind (fun f => f.limit)) 20).toNat) := by
      show ((findUnsliced store (buildGetFilter pkg af)).drop
          (((buildGetFilter pkg af).offset.getD 0).toNat)).take
        ((jsOrOpt (af.getD {} : ReviewFilter).limit 20).toNat) = _
      rw [hbl]
    rw [hrev]
    apply List.length_take_le

/-- Store holding one review for `app.one` and two for `app.two`. -/
def storeMixed : Store :=
  { reviews :=
      [ exReview "m1" "app.one" 5 30 "alpha"
      , exReview "m2" "app.two" 4 20 "beta"
      , exReview "m3" "app.two" 3 10 "gamma" ]
    apps := [] }

/-- C9: when the filter payload carries its own `appPackage`, the spread
in `handleGetReviews` lets it override the top-level argument for
selecting the returned reviews (the result is independent of the
top-level package), while `pagination.total` is still the count for the
top-level package — so the page and the total can refer to different
apps. -/
theorem getReviews_filter_package_override (store : Store) (p p' : String)
    (f : ReviewFilter) (hf : f.appPackage.isSome) :
    (handleGetReviews store p (some f)).reviews =
      (handleGetReviews store p' (some f)).reviews ∧
    (handleGetReviews store p (some f)).pagination.total =
      (store.reviews.filter (fun r => r.appPackage == p)).length := by
  constructor
  · have hb : buildGetFilter p (some f) = buildGetFilter p' (some f) := by
      obtain ⟨q, hq⟩ := Option.isSome_iff_exists.mp hf
      simp [buildGetFilter, hq]
    show findList store (buildGetFilter p (some f)) =
      findList store (buildGetFilter p' (some f))
    rw [hb]
  · rfl

/-- C9 witness: against `storeMixed`, a request with top-level package
`app.one` and filter package `app.two` returns `app.two`'s page while
`total` counts `app.one`'s single review. -/
theorem getReviews_filter_package_override_witness :
    ((handleGetReviews storeMixed "app.one" (some { appPackage := some "app.two" })).reviews =
        (handleGetReviews storeMixed "app.two" (some { appPackage := some "app.two" })).reviews ∧
      (handleGetReviews storeMixed "app.one"
          (some { appPackage := some "app.two" })).pagination.total =
        (storeMixed.reviews.filter (fun r => r.appPackage == "app.one")).length) ∧
    (handleGetReviews storeMixed "app.one"
        (some { appPackage := some "app.two" })).reviews.all
      (fun r => r.appPackage == "app.two") = true ∧
    (handleGetReviews storeMixed "app.one"
        (some { appPackage := some "app.two" })).pagination.total = 1 :=
  ⟨getReviews_filter_package_override storeMixed "app.one" "app.two"
      { appPackage := some "app.two" } (by decide),
    by decide, by decide⟩

/-- C10: the specific-review resource looks the review up by id alone:
whenever some review in the store has the requested id, it is returned
with the supplied package echoed only in the URI, and the request fails
exactly when no review with that id exists. -/
theorem specificReview_ignores_package (store : Store) (p rid : String) :
    (∀ rev, store.reviews.find? (fun r => r.id == rid) = some rev →
      handleSpecificReviewResource store p rid =
        .ok { uri := "googleplay://reviews/" ++ p ++ "/" ++ rid, review := rev }) ∧
    (store.reviews.find? (fun r => r.id == rid) = none →
      handleSpecificReviewResource store p rid =
        .error (.invalidRequest ("Review not found: " ++ rid))) := by
  constructor
  · intro rev h
    unfold handleSpecificReviewResource
    rw [h]
  · intro h
    unfold handleSpecificReviewResource
    rw [h]

/-- C10 witness: requesting `googleplay://reviews/com.example.app/b1`
returns the review `b1` even though it belongs to `com.other.app`. -/
theorem specificReview_ignores_package_witness :
    handleSpecificReviewResource storeOtherOnly "com.example.app" "b1" =
      .ok { uri := "googleplay://reviews/com.example.app/b1", review := otherAppReview } ∧
    otherAppReview.appPackage ≠ "com.example.app" :=
  ⟨(specificReview_ignores_package storeOtherOnly "com.example.app" "b1").1
      otherAppReview (by decide),
    by decide⟩

/-- Membership in the ordered unsliced match list is membership in the
filtered candidate set. -/
theorem mem_findUnsliced (store : Store) (f : ReviewFilter) (r : Review) :
    r ∈ findUnsliced store f ↔ r ∈ candidateSet store f ∧ matchesFilter r f = true := by
  unfold findUnsliced
  rw [List.mem_insertionSort, List.mem_filter]

/-- Filtering the ordered matches counts the same as filtering the raw
filtered candidates (ordering is a permutation). -/
theorem length_filter_findUnsliced (store : Store) (f : ReviewFilter) (p : Review → Bool) :
    ((findUnsliced store f).filter p).length =
      (((candidateSet store f).filter (fun r => matchesFilter r f)).filter p).length :=
  ((List.perm_insertionSort revLe _).filter p).length_eq

/-- When at most 1000 reviews survive the base filter, the internal
batch `find({...filter, limit: 1000, offset: 0})` of the search handler
is the entire ordered match list. -/
theorem findList_search_all (store : Store) (args : SearchArgs)
    (h : (findUnsliced store (searchFindFilter args)).length ≤ 1000) :
    findList store (searchFindFilter args) = findUnsliced store (searchFindFilter args) := by
  show ((findUnsliced store (searchFindFilter args)).drop ((0 : Int).toNat)).take
      ((1000 : Int).toNat) = _
  rw [Int.toNat_zero, List.drop_zero]
  exact List.take_of_length_le h

/-- C2 amended: whenever the base-filter candidate set holds at most
1000 reviews (the handler's internal batch size), `pagination.total`
and `hasMore` of `search_reviews` are computed from the full
post-text-filter set; beyond 1000 candidates the text predicate only
sees the first 1000 (see the counterexample). -/
theorem searchReviews_total_full_set_small (store : Store) (args : SearchArgs)
    (h : (findUnsliced store (searchFindFilter args)).length ≤ 1000) :
    (handleSearchReviews store args).pagination.total =
      ((candidateSet store (searchFindFilter args)).filter
        (fun r => searchCombined args r && matchesFilter r (searchFindFilter args))).length ∧
    (handleSearchReviews store args).pagination.hasMore =
      decide (jsOrOpt args.offset 0 + jsOrOpt args.limit 20 <
        (((candidateSet store (searchFindFilter args)).filter
          (fun r => searchCombined args r && matchesFilter r (searchFindFilter args))).length : Int)) := by
  have hlen : (searchMatching store args).length =
      ((candidateSet store (searchFindFilter args)).filter
        (fun r => searchCombined args r && matchesFilter r (searchFindFilter args))).length := by
    unfold searchMatching
    rw [findList_search_all store args h, length_filter_findUnsliced, List.filter_filter]
  constructor
  · exact hlen
  · show decide (jsOrOpt args.offset 0 + jsOrOpt args.limit 20 <
        ((searchMatching store args).length : Int)) = _
    rw [hlen]

/-- C2 witness: a concrete three-review store with the query "beta". -/
theorem searchReviews_total_full_set_small_witness :
    (handleSearchReviews storeMixed { query := "beta" }).pagination.total =
      ((candidateSet storeMixed (searchFindFilter { query := "beta" })).filter
        (fun r => searchCombined { query := "beta" } r &&
          matchesFilter r (searchFindFilter { query := "beta" }))).length ∧
    (handleSearchReviews storeMixed { query := "beta" }).pagination.hasMore =
      decide (jsOrOpt ({ query := "beta" } : SearchArgs).offset 0 +
          jsOrOpt ({ query := "beta" } : SearchArgs).limit 20 <
        (((candidateSet storeMixed (searchFindFilter { query := "beta" })).filter
          (fun r => searchCombined { query := "beta" } r &&
            matchesFilter r (searchFindFilter { query := "beta" }))).length : Int)) :=
  searchReviews_total_full_set_small storeMixed { query := "beta" } (by decide)

/-- C8 amended: whenever the base-filter candidate set holds at most
1000 reviews, a review belongs to the post-text-filter matching set —
the set the page, `total` and `hasMore` are drawn from — iff it is a
candidate, passes the other filters, and the lowered query occurs in
its lowered `text` or `title`; the returned page is the
`[offset, offset+limit)` slice of that set. -/
theorem searchReviews_member_iff_small (store : Store) (args : SearchArgs)
    (h : (findUnsliced store (searchFindFilter args)).length ≤ 1000) :
    (∀ r, r ∈ searchMatching store args ↔
      (r ∈ candidateSet store (searchFindFilter args) ∧
        matchesFilter r (searchFindFilter args) = true ∧
        searchCombined args r = true)) ∧
    (handleSearchReviews store args).reviews =
      ((searchMatching store args).drop (jsOrOpt args.offset 0).toNat).take
        (jsOrOpt args.limit 20).toNat := by
  constructor
  · intro r
    unfold searchMatching
    rw [findList_search_all store args h, List.mem_filter, mem_findUnsliced]
    tauto
  · rfl

/-- Store for the spec's crash scenario: exactly one review's text
contains "crash", stored with different casing as "Crash!!". -/
def crashStore : Store :=
  { reviews :=
      [ exReview "s1" "app.x" 2 9 "It started to Crash!! today"
      , exReview "s2" "app.x" 5 8 "lovely and smooth" ]
    apps := [] }

/-- The search request of the crash scenario. -/
def crashArgs : SearchArgs := { query := "crash" }

/-- C8 witness: the query "crash" matches exactly the review whose
stored text contains "Crash!!", case notwithstanding, and the returned
page is the slice of the matching set. -/
theorem searchReviews_member_iff_small_witness :
    exReview "s1" "app.x" 2 9 "It started to Crash!! today" ∈
      searchMatching crashStore crashArgs ∧
    (handleSearchReviews crashStore crashArgs).reviews =
      ((searchMatching crashStore crashArgs).drop (jsOrOpt crashArgs.offset 0).toNat).take
        (jsOrOpt crashArgs.limit 20).toNat ∧
    (handleSearchReviews crashStore crashArgs).reviews =
      [exReview "s1" "app.x" 2 9 "It started to Crash!! today"] :=
  ⟨((searchReviews_member_iff_small crashStore crashArgs (by decide)).1 _).mpr (by decide),
    (searchReviews_member_iff_small crashStore crashArgs (by decide)).2,
    by decide⟩

/-- One of 21 identical-text reviews, with distinct ids and strictly
decreasing dates. -/
def manyMatch (i : Nat) : Review :=
  exReview ("t" ++ toString i) "app.x" 5 (21 - i) "c"

/-- Store holding 21 reviews whose text all contains the query "c". -/
def storeTwentyOne : Store := { reviews := (List.range 21).map manyMatch, apps := [] }

/-- The search request used against `storeTwentyOne`. -/
def argsQc : SearchArgs := { query := "c" }

/-- C8 counterexample: in a store where 21 reviews pass the filters and
contain the query, the 21st matching review is absent from the
response's review list (the default `limit` of 20 slices it away), so
inclusion in the search result is not equivalent to matching. -/
theorem searchReviews_sliced_result_cex :
    (manyMatch 20 ∈ storeTwentyOne.reviews ∧
      searchCombined argsQc (manyMatch 20) = true ∧
      matchesFilter (manyMatch 20) (searchBase argsQc) = true) ∧
    manyMatch 20 ∉ (handleSearchReviews storeTwentyOne argsQc).reviews := by
  decide

/-- One of 1001 reviews for `app.big`: only the review with the oldest
date (index 1000) contains the query text "c". -/
def batchReview (i : Nat) : Review :=
  exReview ("r" ++ toString i) "app.big" 5 (1001 - i) (if i == 1000 then "c" else "z")

/-- Store holding 1001 reviews, exceeding the search handler's internal
batch size of 1000. -/
def storeBig : Store := { reviews := (List.range 1001).map batchReview, apps := [] }

/-- C2 counterexample: with 1001 reviews passing the base filter, the
single review whose text contains the query falls outside the internal
1000-review batch, so `pagination.total` is 0 even though the full
candidate set contains one text match — the text predicate is evaluated
over a truncated prefix, not the entire matching candidate set. -/
theorem searchReviews_batch_truncation_cex :
    (handleSearchReviews storeBig { query := "c" }).pagination.total = 0 ∧
    (storeBig.reviews.filter
      (fun r => searchCombined { query := "c" } r)).length = 1 ∧
    (storeBig.reviews.filter
      (fun r => matchesFilter r (searchBase { query := "c" }))).length = 1001 := by
  decide

/-- The store after `addReply` overwrites the reply slot of the review
with the given id. -/
def replyUpdatedStore (store : Store) (rid t : String) (now : Nat) (newId : String) : Store :=
  { store with
      reviews := store.reviews.map
        (fun r => if r.id == rid then applyReply r t now newId else r) }

/-- Looking up by id after an id-preserving conditional update finds the
updated review. -/
theorem find?_map_update (rid : String) (g : Review → Review) (hg : ∀ r, (g r).id = r.id)
    (l : List Review) (rev : Review) (h : l.find? (fun r => r.id == rid) = some rev) :
    (l.map (fun r => if r.id == rid then g r else r)).find? (fun r => r.id == rid) =
      some (g rev) := by
  induction l with
  | nil => simp at h
  | cons a t ih =>
    rw [List.map_cons]
    by_cases ha : (a.id == rid) = true
    · rw [List.find?_cons_of_pos (p := fun r : Review => r.id == rid) _ ha] at h
      injection h with h2
      subst h2
      have hup : (((if a.id == rid then g a else a).id == rid) = true) := by
        rw [if_pos ha, hg]
        exact ha
      rw [List.find?_cons_of_pos (p := fun r : Review => r.id == rid) _ hup, if_pos ha]
    · rw [List.find?_cons_of_neg (p := fun r : Review => r.id == rid) _ ha] at h
      have hup : ¬ (((if a.id == rid then g a else a).id == rid) = true) := by
        rw [if_neg ha]
        exact ha
      rw [List.find?_cons_of_neg (p := fun r : Review => r.id == rid) _ hup]
      exact ih h

/-- A valid reply to an existing review succeeds and overwrites that
review's reply slot. -/
theorem addReply_found (store : Store) (rid t : String) (now : Nat) (newId : String)
    (rev : Review) (hfind : store.reviews.find? (fun r => r.id == rid) = some rev)
    (hlen : t.length = 350) :
    addReply store rid t now newId = .ok (replyUpdatedStore store rid t now newId, true) := by
  unfold addReply replyUpdatedStore
  rw [if_neg (by omega)]
  rw [if_pos (by rw [hfind]; rfl)]

/-- C6: against a store containing a review with the requested id, a
`replyText` of exactly 350 characters succeeds (the store's reply slot
is overwritten and the response echoes the fresh reply id and
timestamp), while one of 351 or more characters is rejected with an
`InvalidArgument`-class error before any mutation (no store is
produced). -/
theorem postReply_length_boundary (store : Store) (rid t : String) (now : Nat)
    (newId : String) (rev : Review)
    (hfind : store.reviews.find? (fun r => r.id == rid) = some rev) :
    (t.length = 350 →
      handlePostReply store rid t now newId =
        .ok (replyUpdatedStore store rid t now newId,
          { success := true, replyId := newId, timestamp := now })) ∧
    (351 ≤ t.length →
      handlePostReply store rid t now newId =
        .error (.invalidParams
          ("replyText exceeds maximum length (" ++ toString t.length ++ "/350)"))) := by
  constructor
  · intro h350
    have hmap := find?_map_update rid (fun r => applyReply r t now newId) (fun r => rfl)
      store.reviews rev hfind
    have hmap2 : ((replyUpdatedStore store rid t now newId).reviews.find?
        (fun r => r.id == rid)) = some (applyReply rev t now newId) := hmap
    unfold handlePostReply
    rw [if_neg (by omega)]
    rw [addReply_found store rid t now newId rev hfind h350]
    simp only [Except.bind]
    rw [if_pos trivial, hmap2]
    rfl
  · intro h351
    unfold handlePostReply
    rw [if_pos (by omega)]

/-- The review a concrete reply is posted to. -/
def replyTargetReview : Review := exReview "p1" "app.y" 3 4 "needs work"

/-- Store holding just `replyTargetReview`. -/
def storeReplyTarget : Store := { reviews := [replyTargetReview], apps := [] }

/-- A reply text of exactly 350 characters. -/
def text350 : String := String.mk (List.replicate 350 'a')

/-- A reply text of 351 characters. -/
def text351 : String := String.mk (List.replicate 351 'b')

/-- C6 witness: on a concrete store, a 350-character reply succeeds and
a 351-character reply fails with the length error. -/
theorem postReply_length_boundary_witness :
    handlePostReply storeReplyTarget "p1" text350 4 "rp1" =
      .ok (replyUpdatedStore storeReplyTarget "p1" text350 4 "rp1",
        { success := true, replyId := "rp1", timestamp := 4 }) ∧
    handlePostReply storeReplyTarget "p1" text351 4 "rp1" =
      .error (.invalidParams
        ("replyText exceeds maximum length (" ++ toString text351.length ++ "/350)")) :=
  ⟨(postReply_length_boundary storeReplyTarget "p1" text350 4 "rp1" replyTargetReview
      (by decide)).1 (by decide),
    (postReply_length_boundary storeReplyTarget "p1" text351 4 "rp1" replyTargetReview
      (by decide)).2 (by decide)⟩
